import Mathlib

/-!
Verification of the device-flow authentication and token-cache subsystem of
the HR-Onboarding backend, as implemented in `backend/ms_graph.py` and
`backend/routes/auth.py`.

Shallow embedding conventions:
- Python dicts with string keys and string values (device-flow descriptors,
  provider token responses, route poll results) are association lists
  `AList = List (String × String)`; `alookup` mirrors both `key in d`
  (presence) and `d.get(key)` (value lookup).
- The identity provider (`app.acquire_token_by_device_flow`) is an external
  collaborator; its behaviour during one poll is a parameter of type
  `ProviderOutcome`: either a response dict, or a raised exception carrying
  the exception class name and message.
- Python exceptions are values: a fallible operation returns
  `PyResult α = ok α | raised className message`.
- Side effects counted by the claims are made explicit in the return value:
  `networkCalled` records whether the provider endpoint was contacted during
  a poll, and `saveCalls` counts invocations of `save_cache()`.
-/

set_option autoImplicit false

namespace HROnboarding

/-- String-keyed, string-valued association list standing for a Python dict. -/
abbrev AList := List (String × String)

/-- First-match lookup: `alookup d k = some v` iff key `k` is present in the
dict `d` with value `v` (Python `k in d` / `d.get(k)`). -/
def alookup {α : Type} : List (String × α) → String → Option α
  | [], _ => none
  | e :: rest, key => if e.1 = key then some e.2 else alookup rest key

/-- Outcome of the single outbound provider call made by one poll:
the provider either returned a response dict, or the transport/parsing
layer raised an exception (class name and message). -/
inductive ProviderOutcome where
  | ok (result : AList)
  | exn (exnType : String) (msg : String)
deriving Repr, DecidableEq

/-- Result of running a fragment of Python code: a normal value, or a raised
exception carrying its class name and message. -/
inductive PyResult (α : Type) where
  | ok (a : α)
  | raised (exnType : String) (msg : String)
deriving Repr, DecidableEq

/-- What one call to `poll_device_flow` produces: the returned dict, whether
the provider endpoint was contacted, and how many times `save_cache()` ran. -/
structure PollOutput where
  result : AList
  networkCalled : Bool
  saveCalls : Nat
deriving Repr, DecidableEq

/-- The dict returned on a malformed descriptor
(`ms_graph.py`, `poll_device_flow`, validation branch). -/
def invalidFlowResult : AList :=
  [("status", "error"), ("error", "invalid_flow"),
   ("error_description", "Invalid device flow structure")]

/-- The dict returned while the user has not finished the browser step
(`ms_graph.py`, `poll_device_flow`, `authorization_pending` and no-key
branches). -/
def pendingResult : AList := [("status", "pending")]

/-- The dict returned when the provider reports `expired_token`
(`ms_graph.py`, `poll_device_flow`). -/
def expiredTokenResult : AList :=
  [("status", "error"), ("error", "expired_token"),
   ("error_description",
    "The authentication code has expired. Please start a new authentication flow.")]

/-- The dict returned for any other provider error code
(`ms_graph.py`, `poll_device_flow`): the code is preserved, the description
defaults to `Error: code` when the provider gave none. -/
def otherErrorResult (ec : String) (desc : Option String) : AList :=
  [("status", "error"), ("error", ec),
   ("error_description", desc.getD ("Error: " ++ ec))]

/-- The dict built by the `except` handler of `poll_device_flow`:
`status=error`, `error` = exception class name. -/
def exnErrorResult (t m : String) : AList :=
  [("status", "error"), ("error", t),
   ("error_description", "An error occurred during authentication: " ++ m)]

/-- `poll_device_flow`'s validation: Python `not (not flow or "device_code"
not in flow)`, i.e. the dict is nonempty and carries `device_code`. -/
def isValidFlow (flow : AList) : Bool :=
  !flow.isEmpty && (alookup flow "device_code").isSome

/-- Body of `poll_device_flow` (`ms_graph.py` lines 151-189) without the
surrounding `try/except`: a provider exception propagates as `raised`.
The only raising operation inside the `try` is the provider call itself
(`save_cache` catches its own I/O errors), so a `raised` outcome implies the
network call was made and no save happened. -/
def poll_device_flow_unhandled (flow : AList) (p : ProviderOutcome) :
    PyResult PollOutput :=
  if !(isValidFlow flow) then
    .ok { result := invalidFlowResult, networkCalled := false, saveCalls := 0 }
  else
    match p with
    | .exn t m => .raised t m
    | .ok r =>
      if (alookup r "access_token").isSome then
        .ok { result := r, networkCalled := true, saveCalls := 1 }
      else
        match alookup r "error" with
        | some ec =>
          if ec = "authorization_pending" then
            .ok { result := pendingResult, networkCalled := true, saveCalls := 0 }
          else if ec = "expired_token" then
            .ok { result := expiredTokenResult, networkCalled := true, saveCalls := 0 }
          else
            .ok { result := otherErrorResult ec (alookup r "error_description"),
                  networkCalled := true, saveCalls := 0 }
        | none =>
          .ok { result := pendingResult, networkCalled := true, saveCalls := 0 }

/-- `poll_device_flow` (`ms_graph.py` lines 140-199): the body wrapped in the
universal `except Exception` handler, which normalizes any exception into a
`status=error` dict whose `error` field is the exception class name. -/
def poll_device_flow (flow : AList) (p : ProviderOutcome) : PollOutput :=
  match poll_device_flow_unhandled flow p with
  | .ok out => out
  | .raised t m => { result := exnErrorResult t m, networkCalled := true, saveCalls := 0 }

/-- State of the MSAL token cache as far as the claims observe it: the cached
accounts, whether the in-memory cache is the empty cache, and whether the
persisted cache file exists on disk. -/
structure CacheState where
  accounts : List String
  memEmpty : Bool
  fileExists : Bool
deriving Repr, DecidableEq

/-- `Path.unlink`: deleting a file that does not exist raises
`FileNotFoundError`. -/
def unlinkFile (s : CacheState) : PyResult CacheState :=
  if s.fileExists then .ok { s with fileExists := false }
  else .raised "FileNotFoundError" "cache file does not exist"

/-- `clear_cache` (`ms_graph.py` lines 48-72): removes every account, resets
the in-memory cache to the empty serialized cache, and deletes the cache file
only if it exists (so the unguarded `unlink` error is never raised); the
`except` clause re-raises, so any raise would propagate. -/
def clear_cache (s : CacheState) : PyResult CacheState :=
  let s1 : CacheState := { s with accounts := [] }
  let s2 : CacheState := { s1 with memEmpty := true }
  if s2.fileExists then unlinkFile s2 else .ok s2

/-- `get_access_token` (`ms_graph.py` lines 89-114). `accounts` is
`app.get_accounts()`; `silent` is what `app.acquire_token_silent` would
return (`none` models MSAL returning `None` when silent acquisition finds no
usable token). The local `result` stays `None` when there is no account, and
the code then evaluates the membership test `"access_token" in result` on
`None`, which raises `TypeError`. -/
def get_access_token (accounts : List String) (silent : Option AList) :
    PyResult String :=
  let result : Option AList := if accounts.isEmpty then none else silent
  match result with
  | none => .raised "TypeError" "argument of type NoneType is not iterable"
  | some r =>
    match alookup r "access_token" with
    | some tok => .ok tok
    | none =>
      .raised "Exception"
        ("Could not acquire access token: "
          ++ (alookup r "error_description").getD "Unknown error")

/-- `app_state.active_device_flows`: flow_id → stored flow descriptor. -/
abbrev Registry := List (String × AList)

/-- `dict.pop(flow_id, None)` / removal of a key from the registry. -/
def rerase : Registry → String → Registry
  | [], _ => []
  | e :: rest, fid => if e.1 = fid then rerase rest fid else e :: rerase rest fid

/-- A response from the `/auth/status` route: either a raised
`HTTPException(code, detail)` or a JSON body. -/
inductive RouteResponse where
  | httpError (code : Nat) (detail : String)
  | body (b : AList)
deriving Repr, DecidableEq

/-- Whether a route response is the 404 FlowNotFound error. -/
def is404 (r : RouteResponse) : Bool :=
  match r with
  | .httpError 404 _ => true
  | _ => false

/-- Everything one `/auth/status` request produces: the HTTP response, the
registry afterwards, and how many `save_cache()` invocations happened. -/
structure StatusOutcome where
  response : RouteResponse
  registry : Registry
  saveCalls : Nat
deriving Repr, DecidableEq

/-- Python `a or b` on an optional string: `None` and `""` are falsy. -/
def pyOr (a : Option String) (b : String) : String :=
  match a with
  | some s => if s = "" then b else s
  | none => b

/-- The 404 detail string of the `/auth/status` route. -/
def authFlowNotFoundDetail : String :=
  "Authentication flow not found. Please initiate a new flow."

/-- `get_auth_status` (`routes/auth.py` lines 58-112). `authenticated` is the
value of the `is_authenticated()` check at the top of the handler (it depends
only on the token cache, not on the registry); `p` is the provider outcome
for the poll this request performs, consulted only when the handler reaches
`poll_device_flow`. -/
def get_auth_status (authenticated : Bool) (registry : Registry)
    (flow_id : String) (p : ProviderOutcome) : StatusOutcome :=
  if authenticated then
    { response := .body [("status", "authenticated"), ("message", "User is authenticated")],
      registry := [], saveCalls := 0 }
  else
    match alookup registry flow_id with
    | none =>
      { response := .httpError 404 authFlowNotFoundDetail,
        registry := registry, saveCalls := 0 }
    | some flow =>
      let po := poll_device_flow flow p
      if (alookup po.result "access_token").isSome then
        { response := .body [("status", "authenticated"),
                             ("message", "Authentication successful")],
          registry := rerase registry flow_id, saveCalls := po.saveCalls }
      else if alookup po.result "status" = some "error" then
        { response := .body [("status", "error"),
            ("error", (alookup po.result "error").getD "unknown_error"),
            ("error_description",
              pyOr (alookup po.result "error_description")
                (pyOr (alookup po.result "error") "Unknown authentication error"))],
          registry := rerase registry flow_id, saveCalls := po.saveCalls }
      else
        { response := .body [("status", "pending"),
                             ("message", "Waiting for user authentication")],
          registry := registry, saveCalls := po.saveCalls }

/-! ## Helper lemmas -/

/-- A key removed from the registry is no longer found. -/
theorem alookup_rerase (reg : Registry) (fid : String) :
    alookup (rerase reg fid) fid = none := by
  induction reg with
  | nil => rfl
  | cons e rest ih =>
    by_cases h : e.1 = fid
    · simp [rerase, h, ih]
    · simp [rerase, alookup, h, ih]

/-- Appending to a nonempty string yields a nonempty string. -/
theorem append_left_ne_empty (a b : String) (h : a ≠ "") : a ++ b ≠ "" := by
  intro hc
  apply h
  have hd : (a ++ b).data = ([] : List Char) := by rw [hc]
  rw [String.data_append] at hd
  rcases List.append_eq_nil.mp hd with ⟨h1, _⟩
  exact String.ext h1

/-- A poll of a valid flow whose provider response carries an access token
returns that response with exactly one `save_cache()` invocation. -/
theorem poll_device_flow_token (flow r : AList) (tok : String)
    (hvalid : isValidFlow flow = true)
    (htok : alookup r "access_token" = some tok) :
    poll_device_flow flow (.ok r)
      = { result := r, networkCalled := true, saveCalls := 1 } := by
  simp [poll_device_flow, poll_device_flow_unhandled, hvalid, htok]

/-- A poll of a valid flow whose provider response reports `expired_token`
returns the fixed expiry error dict. -/
theorem poll_device_flow_expired (flow r : AList)
    (hvalid : isValidFlow flow = true)
    (htok : alookup r "access_token" = none)
    (herr : alookup r "error" = some "expired_token") :
    poll_device_flow flow (.ok r)
      = { result := expiredTokenResult, networkCalled := true, saveCalls := 0 } := by
  simp [poll_device_flow, poll_device_flow_unhandled, hvalid, htok, herr]

/-- A poll of a valid flow during which the provider call raises returns the
normalized exception error dict. -/
theorem poll_device_flow_exn_eq (flow : AList) (t m : String)
    (hvalid : isValidFlow flow = true) :
    poll_device_flow flow (.exn t m)
      = { result := exnErrorResult t m, networkCalled := true, saveCalls := 0 } := by
  simp [poll_device_flow, poll_device_flow_unhandled, hvalid]

/-! ## Claim theorems -/

/-- C1 (counterexample): the claim demands a 404 FlowNotFound for an unknown
flow_id regardless of any other state, but when the silent authentication
check at the top of `get_auth_status` succeeds, a poll with a never-stored
(forged) flow_id returns `status=authenticated` and is not a 404. -/
theorem auth_status_forged_id_authenticated_not_404 :
    (get_auth_status true [] "forged-id" (.ok [])).response
      = .body [("status", "authenticated"), ("message", "User is authenticated")]
    ∧ is404 ((get_auth_status true [] "forged-id" (.ok [])).response) = false := by
  exact ⟨rfl, rfl⟩

/-- C1 (amended): provided the user is not already authenticated
(the `is_authenticated()` check is false), a GET /auth/status with a flow_id
absent from the registry returns the 404 FlowNotFound error, leaves the
registry unchanged and performs no cache save. -/
theorem auth_status_unknown_flow_404 (reg : Registry) (fid : String)
    (p : ProviderOutcome) (hna : alookup reg fid = none) :
    get_auth_status false reg fid p
      = { response := .httpError 404 authFlowNotFoundDetail,
          registry := reg, saveCalls := 0 } := by
  simp [get_auth_status, hna]

/-- C1 (witness): the amended theorem at a concrete unknown id. -/
theorem auth_status_unknown_flow_404_witness :
    alookup ([] : Registry) "missing-id" = none
    ∧ get_auth_status false [] "missing-id" (.ok [])
        = { response := .httpError 404 authFlowNotFoundDetail,
            registry := [], saveCalls := 0 } :=
  ⟨rfl, auth_status_unknown_flow_404 [] "missing-id" (.ok []) rfl⟩

/-- C2 (counterexample): a poll whose provider response carries an access
token returns the terminal authenticated result and reaps the session; the
immediate subsequent poll with the same flow_id — issued after the token was
cached by that very poll, so `is_authenticated()` is now true — returns
`status=authenticated`, not the claimed FlowNotFound 404. -/
theorem auth_status_success_then_second_poll_not_404 :
    (get_auth_status false [("fid1", [("device_code", "dc1")])] "fid1"
        (.ok [("access_token", "tok")])).response
      = .body [("status", "authenticated"), ("message", "Authentication successful")]
    ∧ (get_auth_status false [("fid1", [("device_code", "dc1")])] "fid1"
        (.ok [("access_token", "tok")])).registry = []
    ∧ (get_auth_status true
        ((get_auth_status false [("fid1", [("device_code", "dc1")])] "fid1"
          (.ok [("access_token", "tok")])).registry)
        "fid1" (.ok [])).response
      = .body [("status", "authenticated"), ("message", "User is authenticated")]
    ∧ is404 ((get_auth_status true
        ((get_auth_status false [("fid1", [("device_code", "dc1")])] "fid1"
          (.ok [("access_token", "tok")])).registry)
        "fid1" (.ok [])).response) = false := by
  refine ⟨rfl, rfl, rfl, rfl⟩

/-- C2 (amended): once a poll returns a terminal error result (status
`error`, no access token) the session is reaped, and the immediate subsequent
poll with the same flow_id — the user still being unauthenticated, as an
error terminal does not populate the cache — returns the 404 FlowNotFound
error; after a terminal authenticated result the subsequent poll instead
short-circuits to `status=authenticated` because the silent check now
succeeds. -/
theorem auth_status_terminal_error_then_not_found (reg : Registry)
    (fid : String) (flow : AList) (p p2 : ProviderOutcome)
    (hfind : alookup reg fid = some flow)
    (htok : alookup (poll_device_flow flow p).result "access_token" = none)
    (herr : alookup (poll_device_flow flow p).result "status" = some "error") :
    (get_auth_status false reg fid p).registry = rerase reg fid
    ∧ get_auth_status false ((get_auth_status false reg fid p).registry) fid p2
        = { response := .httpError 404 authFlowNotFoundDetail,
            registry := rerase reg fid, saveCalls := 0 }
    ∧ (get_auth_status true (rerase reg fid) fid p2).response
        = .body [("status", "authenticated"), ("message", "User is authenticated")] := by
  have h1 : (get_auth_status false reg fid p).registry = rerase reg fid := by
    simp [get_auth_status, hfind, htok, herr]
  refine ⟨h1, ?_, ?_⟩
  · rw [h1]
    simp [get_auth_status, alookup_rerase]
  · simp [get_auth_status]

/-- C2 (witness): the amended theorem at a concrete registry, with the
provider reporting `expired_token` (a terminal error) on the first poll. -/
theorem auth_status_terminal_error_then_not_found_witness :
    alookup [("flow-b", [("device_code", "db")])] "flow-b"
        = some [("device_code", "db")]
    ∧ alookup (poll_device_flow [("device_code", "db")]
        (.ok [("error", "expired_token")])).result "access_token" = none
    ∧ alookup (poll_device_flow [("device_code", "db")]
        (.ok [("error", "expired_token")])).result "status" = some "error"
    ∧ ((get_auth_status false [("flow-b", [("device_code", "db")])] "flow-b"
          (.ok [("error", "expired_token")])).registry
        = rerase [("flow-b", [("device_code", "db")])] "flow-b"
      ∧ get_auth_status false
          ((get_auth_status false [("flow-b", [("device_code", "db")])] "flow-b"
            (.ok [("error", "expired_token")])).registry) "flow-b" (.ok [])
          = { response := .httpError 404 authFlowNotFoundDetail,
              registry := rerase [("flow-b", [("device_code", "db")])] "flow-b",
              saveCalls := 0 }
      ∧ (get_auth_status true
            (rerase [("flow-b", [("device_code", "db")])] "flow-b") "flow-b"
            (.ok [])).response
          = .body [("status", "authenticated"), ("message", "User is authenticated")]) :=
  ⟨by decide, by decide, by decide,
    auth_status_terminal_error_then_not_found
      [("flow-b", [("device_code", "db")])] "flow-b" [("device_code", "db")]
      (.ok [("error", "expired_token")]) (.ok [])
      (by decide) (by decide) (by decide)⟩

/-- C3 (counterexample): a request timeout raised while polling a valid flow
is mapped to a result with `status=error` — a terminal error outcome for the
polling caller — and not to the retryable `pending` outcome the claim
demands. -/
theorem poll_timeout_is_error_not_pending :
    alookup (poll_device_flow [("device_code", "dc")]
        (.exn "Timeout" "request timed out")).result "status" = some "error"
    ∧ alookup (poll_device_flow [("device_code", "dc")]
        (.exn "Timeout" "request timed out")).result "status" ≠ some "pending" := by
  constructor
  · rfl
  · decide

/-- C3 (amended): a transport/parse exception raised while polling a valid
in-flight session is caught and mapped to a terminal error outcome whose
`error` field is the exception class name — so it is reported as flow expiry
(`expired_token`) only if the exception class were so named, never otherwise —
and the /auth/status handler treats it as terminal: it returns the error body
and reaps the session rather than keeping the flow alive as pending. -/
theorem auth_status_exception_terminal (reg : Registry) (fid : String)
    (flow : AList) (t m : String)
    (hfind : alookup reg fid = some flow)
    (hvalid : isValidFlow flow = true) :
    (get_auth_status false reg fid (.exn t m)).response
      = .body [("status", "error"), ("error", t),
          ("error_description", "An error occurred during authentication: " ++ m)]
    ∧ (get_auth_status false reg fid (.exn t m)).registry = rerase reg fid := by
  have hp := poll_device_flow_exn_eq flow t m hvalid
  have hne : ("An error occurred during authentication: " ++ m) ≠ "" :=
    append_left_ne_empty _ m (by decide)
  refine ⟨?_, ?_⟩ <;>
    simp [get_auth_status, hfind, hp, exnErrorResult, alookup, pyOr, hne]

/-- C3 (witness): the amended theorem at a concrete session with a concrete
connection error. -/
theorem auth_status_exception_terminal_witness :
    alookup [("flow-c", [("device_code", "dcc")])] "flow-c"
        = some [("device_code", "dcc")]
    ∧ isValidFlow [("device_code", "dcc")] = true
    ∧ ((get_auth_status false [("flow-c", [("device_code", "dcc")])] "flow-c"
          (.exn "ConnectionError" "boom")).response
        = .body [("status", "error"), ("error", "ConnectionError"),
            ("error_description", "An error occurred during authentication: boom")]
      ∧ (get_auth_status false [("flow-c", [("device_code", "dcc")])] "flow-c"
          (.exn "ConnectionError" "boom")).registry
        = rerase [("flow-c", [("device_code", "dcc")])] "flow-c") :=
  ⟨by decide, by decide,
    auth_status_exception_terminal [("flow-c", [("device_code", "dcc")])] "flow-c"
      [("device_code", "dcc")] "ConnectionError" "boom" (by decide) (by decide)⟩

/-- C4 (code bug): with no account in the cache (and likewise when silent
acquisition returns `None`), `get_access_token` leaves the local `result` as
`None` and then evaluates the membership test `"access_token" in result`,
which raises `TypeError` — an uncontrolled failure — instead of the described
authentication-required error the claim (and the function's own error branch)
intends. -/
theorem get_access_token_no_account_raises_type_error :
    get_access_token [] none
      = .raised "TypeError" "argument of type NoneType is not iterable"
    ∧ get_access_token ["someone"] none
      = .raised "TypeError" "argument of type NoneType is not iterable" :=
  ⟨rfl, rfl⟩

/-- C5 (confirmed): for every malformed flow descriptor (empty, or missing
the `device_code` key) and every provider outcome, `poll_device_flow` returns
the distinct `invalid_flow` error result with no network call (and no cache
save); the result is independent of the provider because the provider is
never contacted. -/
theorem poll_device_flow_invalid_fails_fast (flow : AList)
    (p : ProviderOutcome) (hdc : alookup flow "device_code" = none) :
    poll_device_flow flow p
      = { result := invalidFlowResult, networkCalled := false, saveCalls := 0 } := by
  have hv : isValidFlow flow = false := by simp [isValidFlow, hdc]
  simp [poll_device_flow, poll_device_flow_unhandled, hv]

/-- C5 (witness): the theorem at an empty descriptor and at a descriptor
missing `device_code`, with a provider that would have returned a token. -/
theorem poll_device_flow_invalid_fails_fast_witness :
    alookup [("user_code", "ABCD1234")] "device_code" = none
    ∧ poll_device_flow [("user_code", "ABCD1234")] (.ok [("access_token", "tok")])
        = { result := invalidFlowResult, networkCalled := false, saveCalls := 0 }
    ∧ poll_device_flow [] (.ok [("access_token", "tok")])
        = { result := invalidFlowResult, networkCalled := false, saveCalls := 0 } :=
  ⟨by decide,
    poll_device_flow_invalid_fails_fast [("user_code", "ABCD1234")]
      (.ok [("access_token", "tok")]) (by decide),
    poll_device_flow_invalid_fails_fast [] (.ok [("access_token", "tok")]) rfl⟩

/-- C6 (confirmed): when the provider's poll response for an in-flight
session carries `error=expired_token` (and no access token), the /auth/status
handler returns a terminal error body whose description is the user-facing
restart-authentication instruction, and it removes the session from the
registry. -/
theorem auth_status_expired_token_terminal (reg : Registry) (fid : String)
    (flow r : AList)
    (hfind : alookup reg fid = some flow)
    (hvalid : isValidFlow flow = true)
    (htok : alookup r "access_token" = none)
    (herr : alookup r "error" = some "expired_token") :
    (get_auth_status false reg fid (.ok r)).response
      = .body [("status", "error"), ("error", "expired_token"),
          ("error_description",
           "The authentication code has expired. Please start a new authentication flow.")]
    ∧ (get_auth_status false reg fid (.ok r)).registry = rerase reg fid
    ∧ alookup ((get_auth_status false reg fid (.ok r)).registry) fid = none := by
  have hp := poll_device_flow_expired flow r hvalid htok herr
  refine ⟨?_, ?_, ?_⟩ <;>
    simp [get_auth_status, hfind, hp, expiredTokenResult, alookup, pyOr, alookup_rerase]

/-- C6 (witness): the theorem at a concrete session and a concrete
`expired_token` provider response. -/
theorem auth_status_expired_token_terminal_witness :
    alookup [("flow-e", [("device_code", "de")])] "flow-e"
        = some [("device_code", "de")]
    ∧ isValidFlow [("device_code", "de")] = true
    ∧ alookup [("error", "expired_token")] "access_token" = none
    ∧ alookup [("error", "expired_token")] "error" = some "expired_token"
    ∧ ((get_auth_status false [("flow-e", [("device_code", "de")])] "flow-e"
          (.ok [("error", "expired_token")])).response
        = .body [("status", "error"), ("error", "expired_token"),
            ("error_description",
             "The authentication code has expired. Please start a new authentication flow.")]
      ∧ (get_auth_status false [("flow-e", [("device_code", "de")])] "flow-e"
          (.ok [("error", "expired_token")])).registry
        = rerase [("flow-e", [("device_code", "de")])] "flow-e"
      ∧ alookup ((get_auth_status false [("flow-e", [("device_code", "de")])]
          "flow-e" (.ok [("error", "expired_token")])).registry) "flow-e" = none) :=
  ⟨by decide, by decide, by decide, by decide,
    auth_status_expired_token_terminal [("flow-e", [("device_code", "de")])]
      "flow-e" [("device_code", "de")] [("error", "expired_token")]
      (by decide) (by decide) (by decide) (by decide)⟩

/-- C7 (confirmed): when the provider's poll response for an in-flight
session contains an access token, the /auth/status handler returns the
authenticated outcome, exactly one `save_cache()` invocation happens during
that poll, and the session is removed from the registry. -/
theorem auth_status_token_success (reg : Registry) (fid : String)
    (flow r : AList) (tok : String)
    (hfind : alookup reg fid = some flow)
    (hvalid : isValidFlow flow = true)
    (htok : alookup r "access_token" = some tok) :
    (get_auth_status false reg fid (.ok r)).response
      = .body [("status", "authenticated"), ("message", "Authentication successful")]
    ∧ (get_auth_status false reg fid (.ok r)).saveCalls = 1
    ∧ (get_auth_status false reg fid (.ok r)).registry = rerase reg fid
    ∧ alookup ((get_auth_status false reg fid (.ok r)).registry) fid = none := by
  have hp := poll_device_flow_token flow r tok hvalid htok
  refine ⟨?_, ?_, ?_, ?_⟩ <;>
    simp [get_auth_status, hfind, hp, htok, alookup_rerase]

/-- C7 (witness): the theorem at a concrete session and a concrete token
response. -/
theorem auth_status_token_success_witness :
    alookup [("flow-f", [("device_code", "df")])] "flow-f"
        = some [("device_code", "df")]
    ∧ isValidFlow [("device_code", "df")] = true
    ∧ alookup [("access_token", "tok123")] "access_token" = some "tok123"
    ∧ ((get_auth_status false [("flow-f", [("device_code", "df")])] "flow-f"
          (.ok [("access_token", "tok123")])).response
        = .body [("status", "authenticated"), ("message", "Authentication successful")]
      ∧ (get_auth_status false [("flow-f", [("device_code", "df")])] "flow-f"
          (.ok [("access_token", "tok123")])).saveCalls = 1
      ∧ (get_auth_status false [("flow-f", [("device_code", "df")])] "flow-f"
          (.ok [("access_token", "tok123")])).registry
        = rerase [("flow-f", [("device_code", "df")])] "flow-f"
      ∧ alookup ((get_auth_status false [("flow-f", [("device_code", "df")])]
          "flow-f" (.ok [("access_token", "tok123")])).registry) "flow-f" = none) :=
  ⟨by decide, by decide, by decide,
    auth_status_token_success [("flow-f", [("device_code", "df")])] "flow-f"
      [("device_code", "df")] [("access_token", "tok123")] "tok123"
      (by decide) (by decide) (by decide)⟩

/-- C8 (confirmed): `clear_cache` always succeeds and drives any cache state
to the fixed end state (no accounts, empty in-memory cache, no cache file);
calling it again from that end state — in particular with the cache file
already gone — raises no error and yields the same end state, because the
file deletion is guarded by the existence check. -/
theorem clear_cache_idempotent (s : CacheState) :
    clear_cache s = .ok { accounts := [], memEmpty := true, fileExists := false }
    ∧ clear_cache { accounts := [], memEmpty := true, fileExists := false }
        = .ok { accounts := [], memEmpty := true, fileExists := false } := by
  obtain ⟨acc, me, fe⟩ := s
  constructor
  · cases fe <;> simp [clear_cache, unlinkFile]
  · rfl

/-- C9 (confirmed): for every valid flow descriptor, an exception of any
class raised by the provider call makes the unhandled poll body raise, yet
`poll_device_flow` itself returns the normalized error-shaped dict —
`status=error` with the `error` field equal to the exception class name —
so no exception propagates to the request handler. -/
theorem poll_device_flow_exception_normalized (flow : AList) (t m : String)
    (hvalid : isValidFlow flow = true) :
    poll_device_flow_unhandled flow (.exn t m) = .raised t m
    ∧ poll_device_flow flow (.exn t m)
        = { result := exnErrorResult t m, networkCalled := true, saveCalls := 0 }
    ∧ alookup (poll_device_flow flow (.exn t m)).result "error" = some t
    ∧ alookup (poll_device_flow flow (.exn t m)).result "status" = some "error" := by
  have hp := poll_device_flow_exn_eq flow t m hvalid
  refine ⟨?_, hp, ?_, ?_⟩ <;>
    simp [poll_device_flow_unhandled, hvalid, hp, exnErrorResult, alookup]

/-- C9 (witness): the theorem at a concrete valid flow and a concrete
timeout exception. -/
theorem poll_device_flow_exception_normalized_witness :
    isValidFlow [("device_code", "dg")] = true
    ∧ (poll_device_flow_unhandled [("device_code", "dg")]
          (.exn "Timeout" "read timed out") = .raised "Timeout" "read timed out"
      ∧ poll_device_flow [("device_code", "dg")] (.exn "Timeout" "read timed out")
          = { result := exnErrorResult "Timeout" "read timed out",
              networkCalled := true, saveCalls := 0 }
      ∧ alookup (poll_device_flow [("device_code", "dg")]
          (.exn "Timeout" "read timed out")).result "error" = some "Timeout"
      ∧ alookup (poll_device_flow [("device_code", "dg")]
          (.exn "Timeout" "read timed out")).result "status" = some "error") :=
  ⟨by decide,
    poll_device_flow_exception_normalized [("device_code", "dg")]
      "Timeout" "read timed out" (by decide)⟩

/-- C10 (confirmed): for every valid flow descriptor, a provider poll
response containing neither an `access_token` key nor an `error` key makes
`poll_device_flow` return the pending result (status `pending`), keeping the
flow alive rather than failing. -/
theorem poll_device_flow_no_token_no_error_is_pending (flow r : AList)
    (hvalid : isValidFlow flow = true)
    (htok : alookup r "access_token" = none)
    (herr : alookup r "error" = none) :
    poll_device_flow flow (.ok r)
      = { result := pendingResult, networkCalled := true, saveCalls := 0 } := by
  simp [poll_device_flow, poll_device_flow_unhandled, hvalid, htok, herr]

/-- C10 (witness): the theorem at a concrete valid flow and a provider
response with neither key. -/
theorem poll_device_flow_no_token_no_error_is_pending_witness :
    isValidFlow [("device_code", "dh")] = true
    ∧ alookup [("token_type", "Bearer")] "access_token" = none
    ∧ alookup [("token_type", "Bearer")] "error" = none
    ∧ poll_device_flow [("device_code", "dh")] (.ok [("token_type", "Bearer")])
        = { result := pendingResult, networkCalled := true, saveCalls := 0 } :=
  ⟨by decide, by decide, by decide,
    poll_device_flow_no_token_no_error_is_pending [("device_code", "dh")]
      [("token_type", "Bearer")] (by decide) (by decide) (by decide)⟩

end HROnboarding
